import Mathlib

/-!
Shallow embedding of the `arus` personal-budgeting ledger.

Namespace `Arus` embeds `src/main.go` (the decimal-based variant with
transaction logs): `Money`, `Category`, `AllocationRule`, `User`,
`AllocateIncome`, `ProcessExpense`, `GetPeriodSummary`, `CheckIncomeStatus`.
The Go library `shopspring/decimal` is an exact arbitrary-precision decimal;
its `Add`, `Sub`, `Mul`, `Neg`, `Abs` and comparisons are exact, so amounts
are modelled as rationals (decimals are a subset of the rationals closed
under those operations).  `time.Time` values are modelled as integers with
the order of instants; `Period.Contains` only uses `Before`/`After`.

Namespace `V0` embeds `src/unnamed/part_000` (the float64-based variant
whose `AllocateIncome` supports fixed-amount and percentage rules).  Its
`float64` arithmetic is modelled exactly over the rationals; the claims
settled against it are control-flow and structural claims that do not
depend on rounding.

Go methods mutate through pointer receivers and return an `error`; a failed
call keeps every mutation made before the failure.  Operations are therefore
embedded as functions returning `Option String × State`: the first component
is the Go error (`none` = `nil`), the second the state as left by the call,
including partial mutations on failure.
-/

namespace Arus

/-- `Money` from src/main.go: an exact decimal amount and a currency code. -/
structure Money where
  Amount : ℚ
  Currency : String
  deriving DecidableEq, Repr

def NewMoney (amount : ℚ) (currency : String) : Money :=
  { Amount := amount, Currency := currency }

def NewMoneyZero (currency : String) : Money :=
  { Amount := 0, Currency := currency }

/-- `Money.Add`: adds amounts, keeps the left operand's currency. -/
def Money.Add (m other : Money) : Money :=
  { Amount := m.Amount + other.Amount, Currency := m.Currency }

/-- `Money.IsNegative`. -/
def Money.IsNegative (m : Money) : Bool :=
  decide (m.Amount < 0)

/-- `Money.Subtract`: when `other` is negative the code subtracts the
absolute value `other.Amount.Abs()` instead of `other.Amount` itself. -/
def Money.Subtract (m other : Money) : Money :=
  if other.IsNegative then
    { Amount := m.Amount - |other.Amount|, Currency := m.Currency }
  else
    { Amount := m.Amount - other.Amount, Currency := m.Currency }

/-- `Money.IsZero`. -/
def Money.IsZero (m : Money) : Bool :=
  decide (m.Amount = 0)

/-- `CategoryType` enum: Expense, Emergency, Savings. -/
inductive CategoryType
  | Expense
  | Emergency
  | Savings
  deriving DecidableEq, Repr

/-- `CategoryType.String()`. -/
def CategoryType.str : CategoryType → String
  | .Expense => "Expense"
  | .Emergency => "Emergency"
  | .Savings => "Savings"

/-- `AllocationRule` from src/main.go: a category and a percentage. -/
structure AllocationRule where
  categoryType : CategoryType
  Percentage : ℚ
  deriving DecidableEq, Repr

structure BankAccount where
  AccountNumber : String
  BankName : String
  deriving DecidableEq, Repr

/-- `Category`: a typed bucket with a balance and a source bank account. -/
structure Category where
  ctype : CategoryType
  Balance : Money
  bankAccount : BankAccount
  deriving DecidableEq, Repr

/-- `Category.Credit`: unconditionally adds to the balance. -/
def Category.Credit (c : Category) (amount : Money) : Category :=
  { c with Balance := c.Balance.Add amount }

/-- `Category.Debit`: fails when `balance < amount`, else subtracts. -/
def Category.Debit (c : Category) (amount : Money) : Except String Category :=
  if c.Balance.Amount < amount.Amount then
    .error ("insufficient funds in category " ++ c.ctype.str)
  else
    .ok { c with Balance := c.Balance.Subtract amount }

/-- `Transaction`: an amount, a date and a description. -/
structure Transaction where
  Amount : Money
  Date : ℤ
  Description : String
  deriving DecidableEq, Repr

def NewTransaction (amount : Money) (date : ℤ) (description : String) : Transaction :=
  { Amount := amount, Date := date, Description := description }

def NewIncome (amount : Money) (date : ℤ) (description : String) : Transaction :=
  { Amount := amount, Date := date, Description := description }

/-- `NewExpense`: stores the NEGATED amount. -/
def NewExpense (amount : Money) (date : ℤ) (description : String) : Transaction :=
  { Amount := { Amount := -amount.Amount, Currency := amount.Currency }
    Date := date
    Description := description }

/-- `User`: categories keyed by `CategoryType` (a Go map, so a key may be
absent), an ordered rule list, and the two append-only transaction logs. -/
structure User where
  ID : String
  Categories : CategoryType → Option Category
  AllocationRules : List AllocationRule
  Incomes : List Transaction
  Expenses : List Transaction

/-- Map update `u.Categories[t] = c` (Go map assignment). -/
def updateCat (cats : CategoryType → Option Category) (t : CategoryType)
    (c : Category) : CategoryType → Option Category :=
  fun x => if x = t then some c else cats x

/-- The allocation loop of `User.AllocateIncome` (src/main.go lines 188-197):
for each rule in order, resolve its category (error if absent, keeping the
credits already applied), credit `income.Amount * rule.Percentage`. -/
def creditRules : List AllocationRule → (CategoryType → Option Category) →
    Money → Option String × (CategoryType → Option Category)
  | [], cats, _ => (none, cats)
  | rule :: rest, cats, income =>
    match cats rule.categoryType with
    | none => (some ("category " ++ rule.categoryType.str ++ " does not exist"), cats)
    | some category =>
      let allocationAmount := income.Amount * rule.Percentage
      let allocation : Money := { Amount := allocationAmount, Currency := income.Currency }
      creditRules rest (updateCat cats rule.categoryType (category.Credit allocation)) income

/-- `User.AllocateIncome` (src/main.go lines 171-204).  Returns the Go error
and the user as left by the call (partial credits persist on a mid-loop
failure, since the Go receiver is a pointer). -/
def User.AllocateIncome (u : User) (income : Money) (date : ℤ)
    (description : String) : Option String × User :=
  if u.AllocationRules.length < 1 then
    (some "user does not have allocation planned", u)
  else
    let totalPercentage := u.AllocationRules.foldl (fun acc rule => acc + rule.Percentage) 0
    if totalPercentage > 1 then
      (some "total allocation percentages exceed 100%", u)
    else
      match creditRules u.AllocationRules u.Categories income with
      | (some e, cats) => (some e, { u with Categories := cats })
      | (none, cats) =>
        (none, { u with
                  Categories := cats
                  Incomes := u.Incomes ++ [NewTransaction income date description] })

/-- The fixed deduction priority of `User.ProcessExpense`. -/
def deductionOrder : List CategoryType := [.Expense, .Emergency, .Savings]

/-- The waterfall loop of `User.ProcessExpense` (src/main.go lines 210-229):
skip absent categories; if the balance covers the remaining amount, debit it
and break (remaining set to zero); otherwise debit the whole balance and
carry the difference to the next category.  A `Debit` error aborts the loop,
keeping the map as mutated so far. -/
def deductLoop : List CategoryType → (CategoryType → Option Category) →
    Money → Option String × (CategoryType → Option Category) × Money
  | [], cats, amountToDeduct => (none, cats, amountToDeduct)
  | t :: rest, cats, amountToDeduct =>
    match cats t with
    | none => deductLoop rest cats amountToDeduct
    | some category =>
      if amountToDeduct.Amount ≤ category.Balance.Amount then
        match category.Debit amountToDeduct with
        | .error e => (some e, cats, amountToDeduct)
        | .ok c' => (none, updateCat cats t c', { Amount := 0, Currency := amountToDeduct.Currency })
      else
        let deductibleAmount : Money :=
          { Amount := category.Balance.Amount, Currency := category.Balance.Currency }
        match category.Debit deductibleAmount with
        | .error e => (some e, cats, amountToDeduct)
        | .ok c' =>
          deductLoop rest (updateCat cats t c') (amountToDeduct.Subtract deductibleAmount)

/-- `User.ProcessExpense` (src/main.go lines 206-238): run the waterfall,
then fail with the insufficient-funds-across-categories error when a positive
amount remains (debits already applied persist), else append the expense. -/
def User.ProcessExpense (u : User) (expense : Transaction) : Option String × User :=
  match deductLoop deductionOrder u.Categories expense.Amount with
  | (some e, cats, _) => (some e, { u with Categories := cats })
  | (none, cats, amountToDeduct) =>
    if 0 < amountToDeduct.Amount then
      (some "insufficient funds across all categories", { u with Categories := cats })
    else
      (none, { u with Categories := cats, Expenses := u.Expenses ++ [expense] })

/-- `Period`: an inclusive date range. -/
structure Period where
  StartDate : ℤ
  EndDate : ℤ
  deriving DecidableEq, Repr

/-- `Period.Contains`: `!date.Before(start) && !date.After(end)`. -/
def Period.Contains (p : Period) (date : ℤ) : Bool :=
  decide (p.StartDate ≤ date) && decide (date ≤ p.EndDate)

/-- `User.GetPeriodSummary` (src/main.go lines 240-262): totals and lists of
the expenses and incomes whose date falls in the period. -/
def User.GetPeriodSummary (u : User) (period : Period) :
    Money × List Transaction × Money × List Transaction :=
  let expensesInPeriod := u.Expenses.filter (fun e => period.Contains e.Date)
  let totalExpense := expensesInPeriod.foldl (fun acc e => acc.Add e.Amount) (NewMoneyZero "USD")
  let incomesInPeriod := u.Incomes.filter (fun i => period.Contains i.Date)
  let totalIncome := incomesInPeriod.foldl (fun acc i => acc.Add i.Amount) (NewMoneyZero "USD")
  (totalExpense, expensesInPeriod, totalIncome, incomesInPeriod)

/-- The warning string built by `User.CheckIncomeStatus` when reserves were
used, as a function of the two `used` flags. -/
def reservesWarning (emergencyUsed savingsUsed : Bool) : String :=
  "Warning: You have used "
    ++ (if emergencyUsed then "Emergency funds " else "")
    ++ (if savingsUsed then (if emergencyUsed then "and " else "") ++ "Savings funds " else "")
    ++ "to cover your expenses. Consider adjusting your lifestyle or increasing your income."

/-- `User.CheckIncomeStatus` (src/main.go lines 264-291).  The Go code
dereferences `u.Categories[Emergency]` and `u.Categories[Savings]` without a
nil check; `none` models the nil-pointer panic when either is absent. -/
def User.CheckIncomeStatus (u : User) (period : Period) : Option String :=
  let s := u.GetPeriodSummary period
  let totalExpense := s.1
  let totalIncome := s.2.2.1
  match u.Categories .Emergency, u.Categories .Savings with
  | some cEmergency, some cSavings =>
    let emergencyUsed := decide (0 < 0 - cEmergency.Balance.Amount)
    let savingsUsed := decide (0 < 0 - cSavings.Balance.Amount)
    if emergencyUsed || savingsUsed then
      some (reservesWarning emergencyUsed savingsUsed)
    else if totalExpense.Amount ≤ totalIncome.Amount then
      some "Your income covers your expenses."
    else
      some "Your expenses exceed your income."
  | _, _ => none

end Arus

namespace V0

/-- `Money` from src/unnamed/part_000 (a float64 amount, modelled exactly). -/
structure Money where
  Amount : ℚ
  Currency : String
  deriving DecidableEq, Repr

/-- `Money.Add` of part_000. -/
def Money.Add (m other : Money) : Money :=
  { Amount := m.Amount + other.Amount, Currency := m.Currency }

/-- `Money.Subtract` of part_000: plain subtraction (no sign handling). -/
def Money.Subtract (m other : Money) : Money :=
  { Amount := m.Amount - other.Amount, Currency := m.Currency }

/-- `AllocationType`: fixed amount or percentage of remaining income. -/
inductive AllocationType
  | FixedAmount
  | Percentage
  deriving DecidableEq, Repr

/-- `AllocationRule` of part_000: `Amount` is used when the type is
`FixedAmount`, `Percentage` when it is `Percentage`. -/
structure AllocationRule where
  CategoryName : String
  RuleType : AllocationType
  Amount : Money
  Percentage : ℚ
  deriving DecidableEq, Repr

/-- `Category` of part_000: keyed by a free-form name. -/
structure Category where
  Name : String
  Balance : Money
  BankAccount : String
  deriving DecidableEq, Repr

/-- `Category.Credit` of part_000. -/
def Category.Credit (c : Category) (amount : Money) : Category :=
  { c with Balance := c.Balance.Add amount }

/-- `User` of part_000: string-keyed category map and a rule list. -/
structure User where
  ID : String
  Categories : String → Option Category
  AllocationRules : List AllocationRule

/-- Go map assignment `u.Categories[name] = c`. -/
def updateCat (cats : String → Option Category) (name : String)
    (c : Category) : String → Option Category :=
  fun x => if x = name then some c else cats x

/-- First pass of part_000's `AllocateIncome` (lines 92-99): one loop over
the rules summing fixed amounts into `totalFixed` and percentages into
`totalPercentage`. -/
def firstPass : List AllocationRule → ℚ → Money → ℚ × Money
  | [], totalPercentage, totalFixed => (totalPercentage, totalFixed)
  | rule :: rest, totalPercentage, totalFixed =>
    match rule.RuleType with
    | .FixedAmount => firstPass rest totalPercentage (totalFixed.Add rule.Amount)
    | .Percentage => firstPass rest (totalPercentage + rule.Percentage) totalFixed

/-- Second pass of part_000's `AllocateIncome` (lines 112-126): for each
rule in order, resolve its category (error if absent, keeping earlier
credits), credit the fixed amount or `remainingIncome * percentage`. -/
def allocLoop : List AllocationRule → (String → Option Category) →
    Money → Money → Option String × (String → Option Category)
  | [], cats, _, _ => (none, cats)
  | rule :: rest, cats, remainingIncome, income =>
    match cats rule.CategoryName with
    | none => (some ("category " ++ rule.CategoryName ++ " does not exist"), cats)
    | some category =>
      let allocation : Money :=
        match rule.RuleType with
        | .FixedAmount => rule.Amount
        | .Percentage =>
          { Amount := remainingIncome.Amount * rule.Percentage, Currency := income.Currency }
      allocLoop rest (updateCat cats rule.CategoryName (category.Credit allocation))
        remainingIncome income

/-- `User.AllocateIncome` of part_000 (lines 88-130): totals first, then the
percentage-overflow check, THEN the fixed-exceeds-income check, then
`remainingIncome = income - totalFixed` and the allocation loop.  No income
log exists in this variant. -/
def User.AllocateIncome (u : User) (income : Money) : Option String × User :=
  let p := firstPass u.AllocationRules 0 { Amount := 0, Currency := income.Currency }
  let totalPercentage := p.1
  let totalFixed := p.2
  if totalPercentage > 1 then
    (some "total allocation percentages exceed 100%", u)
  else if totalFixed.Amount > income.Amount then
    (some "income insufficient for fixed allocations", u)
  else
    let remainingIncome := income.Subtract totalFixed
    match allocLoop u.AllocationRules u.Categories remainingIncome income with
    | (some e, cats) => (some e, { u with Categories := cats })
    | (none, cats) => (none, { u with Categories := cats })

end V0

namespace Arus

/-- `NewUser` (src/main.go lines 136-169): the fixed starter category set
with zero USD balances. -/
def NewUser (id : String) : User :=
  { ID := id
    Categories := fun t =>
      match t with
      | .Expense =>
        some { ctype := .Expense, Balance := NewMoneyZero "USD",
               bankAccount := { AccountNumber := "EXP123", BankName := "Expense Bank" } }
      | .Emergency =>
        some { ctype := .Emergency, Balance := NewMoneyZero "USD",
               bankAccount := { AccountNumber := "EMG123", BankName := "Emergency Bank" } }
      | .Savings =>
        some { ctype := .Savings, Balance := NewMoneyZero "USD",
               bankAccount := { AccountNumber := "SAV123", BankName := "Savings Bank" } }
    AllocationRules := []
    Incomes := []
    Expenses := [] }

/-- The balance amount held at key `t` of a category map (0 when absent);
used to state totals over the category map. -/
def catBalance (cats : CategoryType → Option Category) (t : CategoryType) : ℚ :=
  match cats t with
  | some c => c.Balance.Amount
  | none => 0

/-- Total of all category balances of a category map. -/
def totalBalanceOf (cats : CategoryType → Option Category) : ℚ :=
  catBalance cats .Expense + catBalance cats .Emergency + catBalance cats .Savings

/-- Total of all category balances of a user. -/
def User.TotalBalance (u : User) : ℚ :=
  totalBalanceOf u.Categories

/-- Test fixture: the starter categories with chosen balances `(e, g, s)`. -/
def sampleCats (e g s : ℚ) : CategoryType → Option Category :=
  fun t =>
    match t with
    | .Expense =>
      some { ctype := .Expense, Balance := NewMoney e "USD",
             bankAccount := { AccountNumber := "EXP123", BankName := "Expense Bank" } }
    | .Emergency =>
      some { ctype := .Emergency, Balance := NewMoney g "USD",
             bankAccount := { AccountNumber := "EMG123", BankName := "Emergency Bank" } }
    | .Savings =>
      some { ctype := .Savings, Balance := NewMoney s "USD",
             bankAccount := { AccountNumber := "SAV123", BankName := "Savings Bank" } }

/-- Test fixture: a user with balances `(e, g, s)` and no rules or logs. -/
def sampleUser (e g s : ℚ) : User :=
  { ID := "user123", Categories := sampleCats e g s,
    AllocationRules := [], Incomes := [], Expenses := [] }

/-- Test fixture: a category map whose Emergency key is absent. -/
def gapCats (e s : ℚ) : CategoryType → Option Category :=
  fun t =>
    match t with
    | .Expense =>
      some { ctype := .Expense, Balance := NewMoney e "USD",
             bankAccount := { AccountNumber := "EXP123", BankName := "Expense Bank" } }
    | .Emergency => none
    | .Savings =>
      some { ctype := .Savings, Balance := NewMoney s "USD",
             bankAccount := { AccountNumber := "SAV123", BankName := "Savings Bank" } }

end Arus

namespace V0

/-- Modelled from the spec (refinement comparison): the total of the
fixed-amount rules of a rule set, written directly from the spec's words
"Sum all fixed-amount rule amounts -> totalFixed". -/
def fixedTotalSpec (rules : List AllocationRule) : ℚ :=
  ((rules.filter (fun r => r.RuleType = .FixedAmount)).map (fun r => r.Amount.Amount)).sum

/-- Modelled from the spec (refinement comparison): the allocation a single
rule should receive per the spec's words — its fixed amount, or
`(income - totalFixed) * percentage` for a percentage rule, with
`totalFixed` taken over the WHOLE rule set. -/
def allocAmountSpec (rules : List AllocationRule) (income : Money)
    (r : AllocationRule) : ℚ :=
  match r.RuleType with
  | .FixedAmount => r.Amount.Amount
  | .Percentage => (income.Amount - fixedTotalSpec rules) * r.Percentage

/-- Test fixture: the starter categories of part_000's `NewUser`, with
chosen balances `(e, g, s)`. -/
def sampleCatsV (e g s : ℚ) : String → Option Category :=
  fun n =>
    if n = "Expense" then some { Name := "Expense", Balance := { Amount := e, Currency := "USD" }, BankAccount := "" }
    else if n = "Emergency" then some { Name := "Emergency", Balance := { Amount := g, Currency := "USD" }, BankAccount := "" }
    else if n = "Savings" then some { Name := "Savings", Balance := { Amount := s, Currency := "USD" }, BankAccount := "" }
    else none

/-- Test fixture: a part_000 user with balances `(e, g, s)`. -/
def sampleUserV (e g s : ℚ) (rules : List AllocationRule) : User :=
  { ID := "user123", Categories := sampleCatsV e g s, AllocationRules := rules }

/-- Test fixture: a fixed-amount rule. -/
def fixedRule (name : String) (amount : ℚ) : AllocationRule :=
  { CategoryName := name, RuleType := .FixedAmount,
    Amount := { Amount := amount, Currency := "USD" }, Percentage := 0 }

/-- Test fixture: a percentage rule. -/
def pctRule (name : String) (p : ℚ) : AllocationRule :=
  { CategoryName := name, RuleType := .Percentage,
    Amount := { Amount := 0, Currency := "USD" }, Percentage := p }

end V0

/-- Test fixture: two percentage rules summing to 1.1. -/
def overflowRules : List Arus.AllocationRule :=
  [{ categoryType := .Expense, Percentage := 3/5 },
   { categoryType := .Emergency, Percentage := 1/2 }]

/-- Test fixture: a part_000 user whose rules violate both the
fixed-exceeds-income check (against income 1000) and the
percentage-overflow check. -/
def bothViolatedUser : V0.User :=
  V0.sampleUserV 0 0 0 [V0.fixedRule "Expense" 2000, V0.pctRule "Savings" (11/10)]

/-- Test fixture: the spec scenario user — starter categories at zero with
percentage rules 0.5 / 0.3 / 0.2. -/
def scenarioUser : Arus.User :=
  { Arus.sampleUser 0 0 0 with
      AllocationRules :=
        [{ categoryType := .Expense, Percentage := 1/2 },
         { categoryType := .Emergency, Percentage := 3/10 },
         { categoryType := .Savings, Percentage := 1/5 }] }

/-- Test fixture: a user whose Emergency category is absent from the map,
with a rule list whose second rule names Emergency. -/
def gapUser : Arus.User :=
  { ID := "user123", Categories := Arus.gapCats 0 0,
    AllocationRules :=
      [{ categoryType := .Expense, Percentage := 1/2 },
       { categoryType := .Emergency, Percentage := 3/10 }],
    Incomes := [], Expenses := [] }

/-- Test fixture: a part_000 user with a percentage rule on Expense followed
by a fixed-amount rule on Savings. -/
def mixedUser : V0.User :=
  V0.sampleUserV 0 0 0 [V0.pctRule "Expense" (1/2), V0.fixedRule "Savings" 200]

/-- Test fixture: an Expense category with the given balance. -/
def catEAt (q : ℚ) : Arus.Category :=
  { ctype := .Expense, Balance := Arus.NewMoney q "USD",
    bankAccount := { AccountNumber := "EXP123", BankName := "Expense Bank" } }

/-- Test fixture: an Emergency category with the given balance. -/
def catGAt (q : ℚ) : Arus.Category :=
  { ctype := .Emergency, Balance := Arus.NewMoney q "USD",
    bankAccount := { AccountNumber := "EMG123", BankName := "Emergency Bank" } }

/-- Test fixture: a Savings category with the given balance. -/
def catSAt (q : ℚ) : Arus.Category :=
  { ctype := .Savings, Balance := Arus.NewMoney q "USD",
    bankAccount := { AccountNumber := "SAV123", BankName := "Savings Bank" } }

/-- Test fixture: a positive-amount 900 USD expense transaction. -/
def expense900 : Arus.Transaction :=
  { Amount := Arus.NewMoney 900 "USD", Date := 5, Description := "Car Repair" }

lemma foldl_add_pct (l : List Arus.AllocationRule) (a : ℚ) :
    l.foldl (fun acc rule => acc + rule.Percentage) a =
      a + (l.map (fun r => r.Percentage)).sum := by
  induction l generalizing a with
  | nil => simp
  | cons r t ih => simp [ih, add_assoc]

/-- C8: `Money.Subtract` with a strictly negative right operand returns
`m.Amount` minus the absolute value of `other.Amount`, i.e.
`m.Amount + other.Amount`, not the arithmetic difference; with a
non-negative right operand it returns the arithmetic difference. -/
theorem money_subtract_negative_adds (m other : Arus.Money) :
    (other.Amount < 0 →
      (m.Subtract other).Amount = m.Amount + other.Amount) ∧
    (0 ≤ other.Amount →
      (m.Subtract other).Amount = m.Amount - other.Amount) := by
  constructor
  · intro h
    simp [Arus.Money.Subtract, Arus.Money.IsNegative, h, abs_of_neg h]
  · intro h
    simp [Arus.Money.Subtract, Arus.Money.IsNegative, not_lt.mpr h]

/-- Witness for C8 at a concrete input: subtracting `-3` from `5` yields
`5 + (-3) = 2`, not `5 - (-3) = 8`. -/
theorem money_subtract_negative_adds_witness :
    ((-3 : ℚ) < 0) ∧
    ((Arus.Money.Subtract { Amount := 5, Currency := "USD" }
        { Amount := -3, Currency := "USD" }).Amount = 5 + (-3)) :=
  ⟨by norm_num,
   (money_subtract_negative_adds { Amount := 5, Currency := "USD" }
      { Amount := -3, Currency := "USD" }).1 (by norm_num)⟩

/-- C6: when the rule set is non-empty and its percentages sum above 1,
`AllocateIncome` fails with the percentage-overflow error and returns the
user completely unchanged (no credit applied, no income recorded). -/
theorem allocateIncome_percentage_overflow_no_mutation
    (u : Arus.User) (income : Arus.Money) (date : ℤ) (description : String)
    (hne : u.AllocationRules ≠ [])
    (hp : 1 < (u.AllocationRules.map (fun r => r.Percentage)).sum) :
    u.AllocateIncome income date description =
      (some "total allocation percentages exceed 100%", u) := by
  have hlen : ¬ u.AllocationRules.length < 1 := by
    simpa [Nat.lt_one_iff, List.length_eq_zero] using hne
  have hfold : u.AllocationRules.foldl (fun acc rule => acc + rule.Percentage) 0 =
      (u.AllocationRules.map (fun r => r.Percentage)).sum := by
    simpa using foldl_add_pct u.AllocationRules 0
  simp [Arus.User.AllocateIncome, hlen, hfold, hp]

/-- Witness for C6: rules with percentages 0.6 and 0.5 (sum 1.1) fail with
the percentage-overflow error and leave the user untouched. -/
theorem allocateIncome_percentage_overflow_no_mutation_witness :
    ({ Arus.NewUser "user123" with AllocationRules := overflowRules } : Arus.User).AllocateIncome
        (Arus.NewMoney 1000 "USD") 0 "September Salary" =
      (some "total allocation percentages exceed 100%",
        { Arus.NewUser "user123" with AllocationRules := overflowRules }) :=
  allocateIncome_percentage_overflow_no_mutation _ _ _ _
    (by simp [overflowRules]) (by norm_num [overflowRules])

/-- Counterexample for C7: a rule set violating BOTH the fixed-exceeds-income
check (total fixed 2000 against income 1000) and the percentage-overflow
check (total percentage 1.1); part_000's `AllocateIncome` returns the
percentage-overflow error, not the claimed `AllocationExceedsIncome`. -/
theorem allocateIncome_error_order_counterexample :
    1 < (V0.firstPass bothViolatedUser.AllocationRules 0
          { Amount := 0, Currency := "USD" }).1 ∧
    1000 < (V0.firstPass bothViolatedUser.AllocationRules 0
          { Amount := 0, Currency := "USD" }).2.Amount ∧
    (bothViolatedUser.AllocateIncome { Amount := 1000, Currency := "USD" }).1 =
      some "total allocation percentages exceed 100%" ∧
    (bothViolatedUser.AllocateIncome { Amount := 1000, Currency := "USD" }).1 ≠
      some "income insufficient for fixed allocations" := by
  have h3 : (bothViolatedUser.AllocateIncome { Amount := 1000, Currency := "USD" }).1 =
      some "total allocation percentages exceed 100%" := by
    norm_num [bothViolatedUser, V0.sampleUserV, V0.fixedRule, V0.pctRule,
      V0.firstPass, V0.Money.Add, V0.User.AllocateIncome]
  refine ⟨?_, ?_, h3, ?_⟩
  · norm_num [bothViolatedUser, V0.sampleUserV, V0.fixedRule, V0.pctRule,
      V0.firstPass, V0.Money.Add]
  · norm_num [bothViolatedUser, V0.sampleUserV, V0.fixedRule, V0.pctRule,
      V0.firstPass, V0.Money.Add]
  · rw [h3]
    simp

/-- C7 amended: in part_000's `AllocateIncome` the percentage-overflow check
runs BEFORE the fixed-exceeds-income check, so when both conditions are
violated the error returned is the percentage-overflow one (and the user is
unchanged). -/
theorem allocateIncome_percentage_check_first
    (u : V0.User) (income : V0.Money)
    (hfix : income.Amount < (V0.firstPass u.AllocationRules 0
      { Amount := 0, Currency := income.Currency }).2.Amount)
    (hp : 1 < (V0.firstPass u.AllocationRules 0
      { Amount := 0, Currency := income.Currency }).1) :
    u.AllocateIncome income = (some "total allocation percentages exceed 100%", u) := by
  simp [V0.User.AllocateIncome, hp]

/-- Witness for the amended C7 at the both-violated input. -/
theorem allocateIncome_percentage_check_first_witness :
    bothViolatedUser.AllocateIncome { Amount := 1000, Currency := "USD" } =
      (some "total allocation percentages exceed 100%", bothViolatedUser) :=
  allocateIncome_percentage_check_first _ _
    (by norm_num [bothViolatedUser, V0.sampleUserV, V0.fixedRule, V0.pctRule,
      V0.firstPass, V0.Money.Add])
    (by norm_num [bothViolatedUser, V0.sampleUserV, V0.fixedRule, V0.pctRule,
      V0.firstPass, V0.Money.Add])

lemma catBalance_updateCat (cats : Arus.CategoryType → Option Arus.Category)
    (t x : Arus.CategoryType) (c : Arus.Category) :
    Arus.catBalance (Arus.updateCat cats t c) x =
      if x = t then c.Balance.Amount else Arus.catBalance cats x := by
  by_cases h : x = t <;> simp [Arus.catBalance, Arus.updateCat, h]

lemma totalBalanceOf_updateCat (cats : Arus.CategoryType → Option Arus.Category)
    (t : Arus.CategoryType) (c c' : Arus.Category) (h : cats t = some c) :
    Arus.totalBalanceOf (Arus.updateCat cats t c') =
      Arus.totalBalanceOf cats - c.Balance.Amount + c'.Balance.Amount := by
  simp only [Arus.totalBalanceOf, catBalance_updateCat]
  cases t <;> simp [Arus.catBalance, h] <;> ring

lemma isSome_updateCat (cats : Arus.CategoryType → Option Arus.Category)
    (t x : Arus.CategoryType) (c : Arus.Category) (h : (cats x).isSome) :
    ((Arus.updateCat cats t c) x).isSome := by
  by_cases hx : x = t <;> simp [Arus.updateCat, hx, h]

lemma creditRules_total (rules : List Arus.AllocationRule)
    (cats : Arus.CategoryType → Option Arus.Category) (income : Arus.Money)
    (h : ∀ r ∈ rules, (cats r.categoryType).isSome) :
    (Arus.creditRules rules cats income).1 = none ∧
    Arus.totalBalanceOf (Arus.creditRules rules cats income).2 =
      Arus.totalBalanceOf cats +
        income.Amount * (rules.map (fun r => r.Percentage)).sum := by
  induction rules generalizing cats with
  | nil => simp [Arus.creditRules]
  | cons r rest ih =>
    obtain ⟨c, hc⟩ := Option.isSome_iff_exists.mp (h r (List.mem_cons_self r rest))
    have hrest : ∀ r' ∈ rest,
        ((Arus.updateCat cats r.categoryType
          (c.Credit { Amount := income.Amount * r.Percentage,
                      Currency := income.Currency })) r'.categoryType).isSome := by
      intro r' hr'
      exact isSome_updateCat _ _ _ _ (h r' (List.mem_cons_of_mem r hr'))
    obtain ⟨h1, h2⟩ := ih _ hrest
    constructor
    · simpa [Arus.creditRules, hc] using h1
    · have hupd := totalBalanceOf_updateCat cats r.categoryType c
        (c.Credit { Amount := income.Amount * r.Percentage,
                    Currency := income.Currency }) hc
      simp only [Arus.creditRules, hc]
      rw [h2, hupd]
      simp [Arus.Category.Credit, Arus.Money.Add]
      ring

/-- C3: with a non-empty rule set of percentage rules summing to `P <= 1`,
each naming an existing category, `AllocateIncome` succeeds, the total of
all category balances grows by exactly `income * P`, and the income log
grows by exactly one entry. -/
theorem allocateIncome_conservation
    (u : Arus.User) (income : Arus.Money) (date : ℤ) (description : String)
    (hne : u.AllocationRules ≠ [])
    (hP : (u.AllocationRules.map (fun r => r.Percentage)).sum ≤ 1)
    (hcats : ∀ r ∈ u.AllocationRules, (u.Categories r.categoryType).isSome) :
    (u.AllocateIncome income date description).1 = none ∧
    (u.AllocateIncome income date description).2.TotalBalance =
      u.TotalBalance +
        income.Amount * (u.AllocationRules.map (fun r => r.Percentage)).sum ∧
    (u.AllocateIncome income date description).2.Incomes.length =
      u.Incomes.length + 1 := by
  have hlen : ¬ u.AllocationRules.length < 1 := by
    simpa [Nat.lt_one_iff, List.length_eq_zero] using hne
  have hfold : u.AllocationRules.foldl (fun acc rule => acc + rule.Percentage) 0 =
      (u.AllocationRules.map (fun r => r.Percentage)).sum := by
    simpa using foldl_add_pct u.AllocationRules 0
  have hnp : ¬ ((u.AllocationRules.map (fun r => r.Percentage)).sum > 1) :=
    not_lt.mpr hP
  obtain ⟨h1, h2⟩ := creditRules_total u.AllocationRules u.Categories income hcats
  rcases hcr : Arus.creditRules u.AllocationRules u.Categories income with ⟨err, cats⟩
  rw [hcr] at h1 h2
  simp only at h1
  subst h1
  simp [Arus.User.AllocateIncome, hlen, hfold, hnp, hcr,
    Arus.User.TotalBalance] at h2 ⊢
  exact h2

/-- Witness for C3 at the spec scenario: percentage rules 0.5/0.3/0.2 on
income 1000 succeed, grow the balance total by 1000, and add one income. -/
theorem allocateIncome_conservation_witness :
    (scenarioUser.AllocateIncome (Arus.NewMoney 1000 "USD") 0 "September Salary").1 = none ∧
    (scenarioUser.AllocateIncome (Arus.NewMoney 1000 "USD") 0 "September Salary").2.TotalBalance =
      scenarioUser.TotalBalance +
        (Arus.NewMoney 1000 "USD").Amount *
          ((scenarioUser.AllocationRules.map (fun r => r.Percentage)).sum) ∧
    (scenarioUser.AllocateIncome (Arus.NewMoney 1000 "USD") 0 "September Salary").2.Incomes.length =
      scenarioUser.Incomes.length + 1 :=
  allocateIncome_conservation scenarioUser (Arus.NewMoney 1000 "USD") 0 "September Salary"
    (by simp [scenarioUser, Arus.sampleUser])
    (by norm_num [scenarioUser, Arus.sampleUser])
    (by simp [scenarioUser, Arus.sampleUser, Arus.sampleCats])

lemma creditRules_append_missing (pre : List Arus.AllocationRule)
    (r : Arus.AllocationRule) (post : List Arus.AllocationRule)
    (cats : Arus.CategoryType → Option Arus.Category) (income : Arus.Money)
    (hpre : ∀ r' ∈ pre, (cats r'.categoryType).isSome)
    (hmiss : cats r.categoryType = none) :
    (Arus.creditRules (pre ++ r :: post) cats income).1 =
      some ("category " ++ r.categoryType.str ++ " does not exist") ∧
    Arus.totalBalanceOf (Arus.creditRules (pre ++ r :: post) cats income).2 =
      Arus.totalBalanceOf cats +
        income.Amount * (pre.map (fun x => x.Percentage)).sum := by
  induction pre generalizing cats with
  | nil => simp [Arus.creditRules, hmiss]
  | cons p rest ih =>
    obtain ⟨c, hc⟩ := Option.isSome_iff_exists.mp (hpre p (List.mem_cons_self p rest))
    have hne2 : r.categoryType ≠ p.categoryType := by
      intro hx
      rw [hx, hc] at hmiss
      cases hmiss
    have hmiss' : (Arus.updateCat cats p.categoryType
        (c.Credit { Amount := income.Amount * p.Percentage,
                    Currency := income.Currency })) r.categoryType = none := by
      simp [Arus.updateCat, hne2, hmiss]
    have hrest : ∀ r' ∈ rest,
        ((Arus.updateCat cats p.categoryType
          (c.Credit { Amount := income.Amount * p.Percentage,
                      Currency := income.Currency })) r'.categoryType).isSome := by
      intro r' hr'
      exact isSome_updateCat _ _ _ _ (hpre r' (List.mem_cons_of_mem p hr'))
    obtain ⟨h1, h2⟩ := ih _ hrest hmiss'
    constructor
    · simpa [Arus.creditRules, hc] using h1
    · have hupd := totalBalanceOf_updateCat cats p.categoryType c
        (c.Credit { Amount := income.Amount * p.Percentage,
                    Currency := income.Currency }) hc
      simp only [List.cons_append, Arus.creditRules, hc, List.append_eq]
      rw [h2, hupd]
      simp [Arus.Category.Credit, Arus.Money.Add]
      ring

/-- C9: when the rule set passes the non-empty and percentage-sum checks
but some rule names a category absent from the map, `AllocateIncome` fails
with the unknown-category error, appends nothing to the income log, yet the
credits for the rules before the offending one remain applied (balance total
grows by `income * sum of the earlier percentages`). -/
theorem allocateIncome_unknown_category_partial_credits
    (u : Arus.User) (income : Arus.Money) (date : ℤ) (description : String)
    (pre post : List Arus.AllocationRule) (r : Arus.AllocationRule)
    (hsplit : u.AllocationRules = pre ++ r :: post)
    (hP : (u.AllocationRules.map (fun x => x.Percentage)).sum ≤ 1)
    (hpre : ∀ r' ∈ pre, (u.Categories r'.categoryType).isSome)
    (hmiss : u.Categories r.categoryType = none) :
    (u.AllocateIncome income date description).1 =
      some ("category " ++ r.categoryType.str ++ " does not exist") ∧
    (u.AllocateIncome income date description).2.Incomes = u.Incomes ∧
    (u.AllocateIncome income date description).2.TotalBalance =
      u.TotalBalance + income.Amount * (pre.map (fun x => x.Percentage)).sum := by
  have hne : u.AllocationRules ≠ [] := by simp [hsplit]
  have hlen : ¬ u.AllocationRules.length < 1 := by
    simpa [Nat.lt_one_iff, List.length_eq_zero] using hne
  have hfold : u.AllocationRules.foldl (fun acc rule => acc + rule.Percentage) 0 =
      (u.AllocationRules.map (fun x => x.Percentage)).sum := by
    simpa using foldl_add_pct u.AllocationRules 0
  have hnp : ¬ ((u.AllocationRules.map (fun x => x.Percentage)).sum > 1) :=
    not_lt.mpr hP
  obtain ⟨h1, h2⟩ := creditRules_append_missing pre r post u.Categories income hpre hmiss
  rw [← hsplit] at h1 h2
  rcases hcr : Arus.creditRules u.AllocationRules u.Categories income with ⟨err, cats⟩
  rw [hcr] at h1 h2
  simp only at h1
  subst h1
  simp [Arus.User.AllocateIncome, hlen, hfold, hnp, hcr,
    Arus.User.TotalBalance] at h2 ⊢
  exact h2

/-- Witness for C9: the Expense rule's credit (1000 * 0.5) persists even
though the Emergency rule fails and no income is recorded. -/
theorem allocateIncome_unknown_category_partial_credits_witness :
    (gapUser.AllocateIncome (Arus.NewMoney 1000 "USD") 0 "September Salary").1 =
      some ("category " ++ Arus.CategoryType.Emergency.str ++ " does not exist") ∧
    (gapUser.AllocateIncome (Arus.NewMoney 1000 "USD") 0 "September Salary").2.Incomes =
      gapUser.Incomes ∧
    (gapUser.AllocateIncome (Arus.NewMoney 1000 "USD") 0 "September Salary").2.TotalBalance =
      gapUser.TotalBalance +
        (Arus.NewMoney 1000 "USD").Amount *
          (([({ categoryType := .Expense, Percentage := 1/2 } : Arus.AllocationRule)].map
            (fun x => x.Percentage)).sum) :=
  allocateIncome_unknown_category_partial_credits gapUser (Arus.NewMoney 1000 "USD") 0
    "September Salary"
    [{ categoryType := .Expense, Percentage := 1/2 }] []
    { categoryType := .Emergency, Percentage := 3/10 }
    rfl
    (by norm_num [gapUser])
    (by simp [gapUser, Arus.gapCats])
    rfl

lemma firstPass_fixed_total (rules : List V0.AllocationRule) (tp : ℚ) (tf : V0.Money) :
    (V0.firstPass rules tp tf).2.Amount = tf.Amount + V0.fixedTotalSpec rules := by
  induction rules generalizing tp tf with
  | nil => simp [V0.firstPass, V0.fixedTotalSpec]
  | cons r rest ih =>
    cases hr : r.RuleType <;>
      simp [V0.firstPass, hr, V0.fixedTotalSpec, V0.Money.Add, ih,
        List.filter_cons, add_assoc]

lemma allocLoop_balance (rules : List V0.AllocationRule)
    (cats : String → Option V0.Category) (rem income : V0.Money)
    (name : String) (c : V0.Category)
    (hsucc : (V0.allocLoop rules cats rem income).1 = none)
    (hc : cats name = some c) :
    ((V0.allocLoop rules cats rem income).2 name).map (fun x => x.Balance.Amount) =
      some (c.Balance.Amount +
        ((rules.filter (fun r => r.CategoryName = name)).map
          (fun r => match r.RuleType with
            | .FixedAmount => r.Amount.Amount
            | .Percentage => rem.Amount * r.Percentage)).sum) := by
  induction rules generalizing cats c with
  | nil => simp [V0.allocLoop, hc]
  | cons r rest ih =>
    cases hlook : cats r.CategoryName with
    | none => simp [V0.allocLoop, hlook] at hsucc
    | some cr =>
      by_cases hname : r.CategoryName = name
      · subst hname
        have hcr : cr = c := by rw [hlook] at hc; exact (Option.some.injEq _ _).mp hc
        subst hcr
        cases hrt : r.RuleType with
        | FixedAmount =>
          have hsucc' : (V0.allocLoop rest
              (V0.updateCat cats r.CategoryName (cr.Credit r.Amount)) rem income).1 = none := by
            simpa [V0.allocLoop, hlook, hrt] using hsucc
          have hc' : (V0.updateCat cats r.CategoryName (cr.Credit r.Amount)) r.CategoryName =
              some (cr.Credit r.Amount) := by
            simp [V0.updateCat]
          have := ih _ _ hsucc' hc'
          simp only [V0.allocLoop, hlook, hrt] at this ⊢
          rw [this]
          simp [V0.Category.Credit, V0.Money.Add, List.filter_cons, hrt, add_assoc]
        | Percentage =>
          have hsucc' : (V0.allocLoop rest
              (V0.updateCat cats r.CategoryName
                (cr.Credit { Amount := rem.Amount * r.Percentage,
                             Currency := income.Currency })) rem income).1 = none := by
            simpa [V0.allocLoop, hlook, hrt] using hsucc
          have hc' : (V0.updateCat cats r.CategoryName
              (cr.Credit { Amount := rem.Amount * r.Percentage,
                           Currency := income.Currency })) r.CategoryName =
              some (cr.Credit { Amount := rem.Amount * r.Percentage,
                                Currency := income.Currency }) := by
            simp [V0.updateCat]
          have := ih _ _ hsucc' hc'
          simp only [V0.allocLoop, hlook, hrt] at this ⊢
          rw [this]
          simp [V0.Category.Credit, V0.Money.Add, List.filter_cons, hrt, add_assoc]
      · have hc' : ∀ a : V0.Category,
            (V0.updateCat cats r.CategoryName a) name = some c := by
          intro a
          have hne3 : name ≠ r.CategoryName := fun h => hname h.symm
          simp [V0.updateCat, hne3, hc]
        cases hrt : r.RuleType with
        | FixedAmount =>
          have hsucc' : (V0.allocLoop rest
              (V0.updateCat cats r.CategoryName (cr.Credit r.Amount)) rem income).1 = none := by
            simpa [V0.allocLoop, hlook, hrt] using hsucc
          have := ih _ _ hsucc' (hc' (cr.Credit r.Amount))
          simp only [V0.allocLoop, hlook, hrt] at this ⊢
          rw [this]
          simp [List.filter_cons, hname]
        | Percentage =>
          have hsucc' : (V0.allocLoop rest
              (V0.updateCat cats r.CategoryName
                (cr.Credit { Amount := rem.Amount * r.Percentage,
                             Currency := income.Currency })) rem income).1 = none := by
            simpa [V0.allocLoop, hlook, hrt] using hsucc
          have := ih _ _ hsucc'
            (hc' (cr.Credit { Amount := rem.Amount * r.Percentage,
                              Currency := income.Currency }))
          simp only [V0.allocLoop, hlook, hrt] at this ⊢
          rw [this]
          simp [List.filter_cons, hname]

/-- C5: on a successful part_000 `AllocateIncome` over mixed fixed and
percentage rules, every category's new balance is its old balance plus the
sum of its rules' allocations, where a percentage rule's allocation is
`(income - totalFixed) * percentage` with `totalFixed` the sum of the fixed
amounts of the WHOLE rule set — fixed amounts are deducted from income
before any percentage rule is evaluated. -/
theorem allocateIncome_fixed_before_percentage (u : V0.User) (income : V0.Money)
    (hsucc : (u.AllocateIncome income).1 = none)
    (name : String) (c : V0.Category)
    (hc : u.Categories name = some c) :
    ((u.AllocateIncome income).2.Categories name).map (fun x => x.Balance.Amount) =
      some (c.Balance.Amount +
        ((u.AllocationRules.filter (fun r => r.CategoryName = name)).map
          (V0.allocAmountSpec u.AllocationRules income)).sum) := by
  set p := V0.firstPass u.AllocationRules 0 { Amount := 0, Currency := income.Currency } with hp
  by_cases h1 : p.1 > 1
  · exfalso
    simp [V0.User.AllocateIncome, ← hp, h1] at hsucc
  by_cases h2 : p.2.Amount > income.Amount
  · exfalso
    simp [V0.User.AllocateIncome, ← hp, h1, h2] at hsucc
  set rem := income.Subtract p.2 with hrem
  rcases hal : V0.allocLoop u.AllocationRules u.Categories rem income with ⟨err, cats'⟩
  cases err with
  | some e =>
    exfalso
    have hres : (u.AllocateIncome income).1 = some e := by
      simp [V0.User.AllocateIncome, ← hp, h1, h2, ← hrem, hal]
    rw [hres] at hsucc
    simp at hsucc
  | none =>
    have hres : u.AllocateIncome income = (none, { u with Categories := cats' }) := by
      simp [V0.User.AllocateIncome, ← hp, h1, h2, ← hrem, hal]
    rw [hres]
    have hln : (V0.allocLoop u.AllocationRules u.Categories rem income).1 = none := by
      rw [hal]
    have hb := allocLoop_balance u.AllocationRules u.Categories rem income name c hln hc
    rw [hal] at hb
    simp only at hb ⊢
    rw [hb]
    have hremAmt : rem.Amount = income.Amount - V0.fixedTotalSpec u.AllocationRules := by
      rw [hrem, hp]
      simp [V0.Money.Subtract, firstPass_fixed_total]
    have hfun : (fun r : V0.AllocationRule => match r.RuleType with
        | .FixedAmount => r.Amount.Amount
        | .Percentage => rem.Amount * r.Percentage) =
        V0.allocAmountSpec u.AllocationRules income := by
      funext r
      cases hrt : r.RuleType <;> simp [V0.allocAmountSpec, hrt, hremAmt]
    rw [hfun]

/-- Witness for C5: rules [Expense 50%, Savings fixed 200] on income 1000
succeed, and Expense receives (1000 - 200) * 0.5 = 400 even though the fixed
rule comes later in the list. -/
theorem allocateIncome_fixed_before_percentage_witness :
    (mixedUser.AllocateIncome { Amount := 1000, Currency := "USD" }).1 = none ∧
    ((mixedUser.AllocateIncome { Amount := 1000, Currency := "USD" }).2.Categories
        "Expense").map (fun x => x.Balance.Amount) =
      some (({ Name := "Expense", Balance := { Amount := 0, Currency := "USD" },
               BankAccount := "" } : V0.Category).Balance.Amount +
        ((mixedUser.AllocationRules.filter (fun r => r.CategoryName = "Expense")).map
          (V0.allocAmountSpec mixedUser.AllocationRules
            { Amount := 1000, Currency := "USD" })).sum) := by
  have hsucc : (mixedUser.AllocateIncome { Amount := 1000, Currency := "USD" }).1 = none := by
    simp [mixedUser, V0.sampleUserV, V0.pctRule, V0.fixedRule, V0.User.AllocateIncome,
      V0.firstPass, V0.Money.Add, V0.allocLoop, V0.sampleCatsV, V0.updateCat,
      V0.Category.Credit, V0.Money.Subtract]
    norm_num
  refine ⟨hsucc, ?_⟩
  exact allocateIncome_fixed_before_percentage mixedUser
    { Amount := 1000, Currency := "USD" } hsucc "Expense"
    { Name := "Expense", Balance := { Amount := 0, Currency := "USD" }, BankAccount := "" }
    (by simp [mixedUser, V0.sampleUserV, V0.sampleCatsV])
lemma processExpense_run (u : Arus.User) (expense : Arus.Transaction)
    (cE cG cS : Arus.Category)
    (hE : u.Categories .Expense = some cE)
    (hG : u.Categories .Emergency = some cG)
    (hS : u.Categories .Savings = some cS)
    (he : 0 ≤ cE.Balance.Amount) (hg : 0 ≤ cG.Balance.Amount)
    (hs : 0 ≤ cS.Balance.Amount) (hx : 0 ≤ expense.Amount.Amount) :
    ((u.ProcessExpense expense).1 =
      if cE.Balance.Amount + cG.Balance.Amount + cS.Balance.Amount < expense.Amount.Amount
      then some "insufficient funds across all categories" else none) ∧
    ((u.ProcessExpense expense).2.Categories .Expense).map (fun c => c.Balance.Amount) =
      some (cE.Balance.Amount - min expense.Amount.Amount cE.Balance.Amount) ∧
    ((u.ProcessExpense expense).2.Categories .Emergency).map (fun c => c.Balance.Amount) =
      some (cG.Balance.Amount -
        min (max (expense.Amount.Amount - cE.Balance.Amount) 0) cG.Balance.Amount) ∧
    ((u.ProcessExpense expense).2.Categories .Savings).map (fun c => c.Balance.Amount) =
      some (cS.Balance.Amount -
        min (max (expense.Amount.Amount - cE.Balance.Amount - cG.Balance.Amount) 0)
          cS.Balance.Amount) ∧
    ((u.ProcessExpense expense).2.Expenses =
      if cE.Balance.Amount + cG.Balance.Amount + cS.Balance.Amount < expense.Amount.Amount
      then u.Expenses else u.Expenses ++ [expense]) ∧
    (u.ProcessExpense expense).2.Incomes = u.Incomes := by
  have hxn : ¬ expense.Amount.Amount < 0 := not_lt.mpr hx
  rcases le_or_lt expense.Amount.Amount cE.Balance.Amount with hA | hA
  · have h1 : ¬ cE.Balance.Amount < expense.Amount.Amount := not_lt.mpr hA
    have hno : ¬ (cE.Balance.Amount + cG.Balance.Amount + cS.Balance.Amount <
        expense.Amount.Amount) := not_lt.mpr (by linarith)
    rw [if_neg hno, if_neg hno]
    simp [Arus.User.ProcessExpense, Arus.deductionOrder, Arus.deductLoop, hE, hG, hS,
      Arus.Category.Debit, Arus.Money.Subtract, Arus.Money.IsNegative, hxn, h1, hA,
      Arus.updateCat]
    repeat' constructor
    all_goals simp only [min_def, max_def]
    all_goals split_ifs <;> linarith
  · have h1 : ¬ expense.Amount.Amount ≤ cE.Balance.Amount := not_le.mpr hA
    have hen : ¬ cE.Balance.Amount < 0 := not_lt.mpr he
    have hpos1 : ¬ (expense.Amount.Amount - cE.Balance.Amount < 0) :=
      not_lt.mpr (by linarith)
    rcases le_or_lt (expense.Amount.Amount - cE.Balance.Amount) cG.Balance.Amount with hB | hB
    · have h2 : ¬ cG.Balance.Amount < expense.Amount.Amount - cE.Balance.Amount :=
        not_lt.mpr hB
      have hno : ¬ (cE.Balance.Amount + cG.Balance.Amount + cS.Balance.Amount <
          expense.Amount.Amount) := not_lt.mpr (by linarith)
      rw [if_neg hno, if_neg hno]
      simp [Arus.User.ProcessExpense, Arus.deductionOrder, Arus.deductLoop, hE, hG, hS,
        Arus.Category.Debit, Arus.Money.Subtract, Arus.Money.IsNegative, hxn, h1, hen,
        hpos1, hB, h2, Arus.updateCat]
      repeat' constructor
      all_goals simp only [min_def, max_def]
      all_goals split_ifs <;> linarith
    · have h2 : ¬ (expense.Amount.Amount - cE.Balance.Amount ≤ cG.Balance.Amount) :=
        not_le.mpr hB
      have hgn : ¬ cG.Balance.Amount < 0 := not_lt.mpr hg
      have hpos2 : ¬ (expense.Amount.Amount - cE.Balance.Amount - cG.Balance.Amount < 0) :=
        not_lt.mpr (by linarith)
      rcases le_or_lt (expense.Amount.Amount - cE.Balance.Amount - cG.Balance.Amount)
        cS.Balance.Amount with hC | hC
      · have h3 : ¬ cS.Balance.Amount <
            expense.Amount.Amount - cE.Balance.Amount - cG.Balance.Amount := not_lt.mpr hC
        have hno : ¬ (cE.Balance.Amount + cG.Balance.Amount + cS.Balance.Amount <
            expense.Amount.Amount) := not_lt.mpr (by linarith)
        rw [if_neg hno, if_neg hno]
        simp [Arus.User.ProcessExpense, Arus.deductionOrder, Arus.deductLoop, hE, hG, hS,
          Arus.Category.Debit, Arus.Money.Subtract, Arus.Money.IsNegative, hxn, h1, hen,
          hpos1, hpos2, h2, hgn, hC, h3, Arus.updateCat]
        repeat' constructor
        all_goals simp only [min_def, max_def]
        all_goals split_ifs <;> linarith
      · have h3 : ¬ (expense.Amount.Amount - cE.Balance.Amount - cG.Balance.Amount ≤
            cS.Balance.Amount) := not_le.mpr hC
        have hsn : ¬ cS.Balance.Amount < 0 := not_lt.mpr hs
        have hrem : 0 < expense.Amount.Amount - cE.Balance.Amount - cG.Balance.Amount -
            cS.Balance.Amount := by linarith
        have hyes : cE.Balance.Amount + cG.Balance.Amount + cS.Balance.Amount <
            expense.Amount.Amount := by linarith
        rw [if_pos hyes, if_pos hyes]
        simp [Arus.User.ProcessExpense, Arus.deductionOrder, Arus.deductLoop, hE, hG, hS,
          Arus.Category.Debit, Arus.Money.Subtract, Arus.Money.IsNegative, hxn, h1, hen,
          hpos1, hpos2, h2, hgn, h3, hsn, hrem, Arus.updateCat]
        repeat' constructor
        all_goals simp only [min_def, max_def]
        all_goals split_ifs <;> linarith

/-- C1: with non-negative expense amount and non-negative balances
`(e, g, s)`, the post-state of `ProcessExpense` debits Expense first
(`min E e`), Emergency only with what exceeds Expense, Savings only with
what exceeds both; a nonzero Emergency debit forces Expense fully drained
and a nonzero Savings debit forces both; the three debits total
`min E (e + g + s)`. -/
theorem processExpense_waterfall_order (u : Arus.User) (expense : Arus.Transaction)
    (cE cG cS : Arus.Category)
    (hE : u.Categories .Expense = some cE)
    (hG : u.Categories .Emergency = some cG)
    (hS : u.Categories .Savings = some cS)
    (he : 0 ≤ cE.Balance.Amount) (hg : 0 ≤ cG.Balance.Amount)
    (hs : 0 ≤ cS.Balance.Amount) (hx : 0 ≤ expense.Amount.Amount) :
    ((u.ProcessExpense expense).2.Categories .Expense).map (fun c => c.Balance.Amount) =
      some (cE.Balance.Amount - min expense.Amount.Amount cE.Balance.Amount) ∧
    ((u.ProcessExpense expense).2.Categories .Emergency).map (fun c => c.Balance.Amount) =
      some (cG.Balance.Amount -
        min (max (expense.Amount.Amount - cE.Balance.Amount) 0) cG.Balance.Amount) ∧
    ((u.ProcessExpense expense).2.Categories .Savings).map (fun c => c.Balance.Amount) =
      some (cS.Balance.Amount -
        min (max (expense.Amount.Amount - cE.Balance.Amount - cG.Balance.Amount) 0)
          cS.Balance.Amount) ∧
    min expense.Amount.Amount cE.Balance.Amount +
      min (max (expense.Amount.Amount - cE.Balance.Amount) 0) cG.Balance.Amount +
      min (max (expense.Amount.Amount - cE.Balance.Amount - cG.Balance.Amount) 0)
        cS.Balance.Amount =
      min expense.Amount.Amount
        (cE.Balance.Amount + cG.Balance.Amount + cS.Balance.Amount) ∧
    (min (max (expense.Amount.Amount - cE.Balance.Amount) 0) cG.Balance.Amount ≠ 0 →
      min expense.Amount.Amount cE.Balance.Amount = cE.Balance.Amount) ∧
    (min (max (expense.Amount.Amount - cE.Balance.Amount - cG.Balance.Amount) 0)
        cS.Balance.Amount ≠ 0 →
      min (max (expense.Amount.Amount - cE.Balance.Amount) 0) cG.Balance.Amount =
          cG.Balance.Amount ∧
        min expense.Amount.Amount cE.Balance.Amount = cE.Balance.Amount) := by
  obtain ⟨-, h2, h3, h4, -, -⟩ :=
    processExpense_run u expense cE cG cS hE hG hS he hg hs hx
  refine ⟨h2, h3, h4, ?_, ?_, ?_⟩
  · simp only [min_def, max_def]
    split_ifs <;> linarith
  · intro h5
    rcases le_or_lt expense.Amount.Amount cE.Balance.Amount with hA | hA
    · exfalso
      apply h5
      simp only [min_def, max_def]
      split_ifs <;> linarith
    · exact min_eq_right (le_of_lt hA)
  · intro h6
    have hpos : 0 < expense.Amount.Amount - cE.Balance.Amount - cG.Balance.Amount := by
      by_contra hle
      push_neg at hle
      apply h6
      simp only [min_def, max_def]
      split_ifs <;> linarith
    constructor
    · simp only [min_def, max_def]
      split_ifs <;> linarith
    · simp only [min_def]
      split_ifs <;> linarith

/-- Witness for C1 at the spec scenario: a 900 expense against balances
(500, 300, 200). -/
theorem processExpense_waterfall_order_witness :
    (((Arus.sampleUser 500 300 200).ProcessExpense expense900).2.Categories
        .Expense).map (fun c => c.Balance.Amount) =
      some ((catEAt 500).Balance.Amount -
        min expense900.Amount.Amount (catEAt 500).Balance.Amount) ∧
    (((Arus.sampleUser 500 300 200).ProcessExpense expense900).2.Categories
        .Emergency).map (fun c => c.Balance.Amount) =
      some ((catGAt 300).Balance.Amount -
        min (max (expense900.Amount.Amount - (catEAt 500).Balance.Amount) 0)
          (catGAt 300).Balance.Amount) ∧
    (((Arus.sampleUser 500 300 200).ProcessExpense expense900).2.Categories
        .Savings).map (fun c => c.Balance.Amount) =
      some ((catSAt 200).Balance.Amount -
        min (max (expense900.Amount.Amount - (catEAt 500).Balance.Amount -
            (catGAt 300).Balance.Amount) 0) (catSAt 200).Balance.Amount) ∧
    min expense900.Amount.Amount (catEAt 500).Balance.Amount +
      min (max (expense900.Amount.Amount - (catEAt 500).Balance.Amount) 0)
        (catGAt 300).Balance.Amount +
      min (max (expense900.Amount.Amount - (catEAt 500).Balance.Amount -
          (catGAt 300).Balance.Amount) 0) (catSAt 200).Balance.Amount =
      min expense900.Amount.Amount
        ((catEAt 500).Balance.Amount + (catGAt 300).Balance.Amount +
          (catSAt 200).Balance.Amount) ∧
    (min (max (expense900.Amount.Amount - (catEAt 500).Balance.Amount) 0)
        (catGAt 300).Balance.Amount ≠ 0 →
      min expense900.Amount.Amount (catEAt 500).Balance.Amount =
        (catEAt 500).Balance.Amount) ∧
    (min (max (expense900.Amount.Amount - (catEAt 500).Balance.Amount -
        (catGAt 300).Balance.Amount) 0) (catSAt 200).Balance.Amount ≠ 0 →
      min (max (expense900.Amount.Amount - (catEAt 500).Balance.Amount) 0)
          (catGAt 300).Balance.Amount = (catGAt 300).Balance.Amount ∧
        min expense900.Amount.Amount (catEAt 500).Balance.Amount =
          (catEAt 500).Balance.Amount) :=
  processExpense_waterfall_order (Arus.sampleUser 500 300 200) expense900
    (catEAt 500) (catGAt 300) (catSAt 200) rfl rfl rfl
    (by norm_num [catEAt, Arus.NewMoney])
    (by norm_num [catGAt, Arus.NewMoney])
    (by norm_num [catSAt, Arus.NewMoney])
    (by norm_num [expense900, Arus.NewMoney])

/-- C2: with non-negative amount and balances, `ProcessExpense` fails with
the insufficient-funds-across-categories error exactly when the expense
exceeds the combined balances; on failure the expense is not appended to
the expense log, yet all three categories stay fully drained to zero (the
debits applied during the traversal are not rolled back); when the expense
is covered, the call succeeds and the expense is appended. -/
theorem processExpense_failure_no_rollback (u : Arus.User) (expense : Arus.Transaction)
    (cE cG cS : Arus.Category)
    (hE : u.Categories .Expense = some cE)
    (hG : u.Categories .Emergency = some cG)
    (hS : u.Categories .Savings = some cS)
    (he : 0 ≤ cE.Balance.Amount) (hg : 0 ≤ cG.Balance.Amount)
    (hs : 0 ≤ cS.Balance.Amount) (hx : 0 ≤ expense.Amount.Amount) :
    (cE.Balance.Amount + cG.Balance.Amount + cS.Balance.Amount <
        expense.Amount.Amount →
      (u.ProcessExpense expense).1 = some "insufficient funds across all categories" ∧
      ((u.ProcessExpense expense).2.Categories .Expense).map
        (fun c => c.Balance.Amount) = some 0 ∧
      ((u.ProcessExpense expense).2.Categories .Emergency).map
        (fun c => c.Balance.Amount) = some 0 ∧
      ((u.ProcessExpense expense).2.Categories .Savings).map
        (fun c => c.Balance.Amount) = some 0 ∧
      (u.ProcessExpense expense).2.Expenses = u.Expenses) ∧
    (expense.Amount.Amount ≤
        cE.Balance.Amount + cG.Balance.Amount + cS.Balance.Amount →
      (u.ProcessExpense expense).1 = none ∧
      (u.ProcessExpense expense).2.Expenses = u.Expenses ++ [expense]) := by
  obtain ⟨h1, h2, h3, h4, h5, -⟩ :=
    processExpense_run u expense cE cG cS hE hG hS he hg hs hx
  constructor
  · intro hc
    rw [if_pos hc] at h1 h5
    have m1 : min expense.Amount.Amount cE.Balance.Amount = cE.Balance.Amount := by
      simp only [min_def]
      split_ifs <;> linarith
    have m2 : min (max (expense.Amount.Amount - cE.Balance.Amount) 0)
        cG.Balance.Amount = cG.Balance.Amount := by
      simp only [min_def, max_def]
      split_ifs <;> linarith
    have m3 : min (max (expense.Amount.Amount - cE.Balance.Amount -
        cG.Balance.Amount) 0) cS.Balance.Amount = cS.Balance.Amount := by
      simp only [min_def, max_def]
      split_ifs <;> linarith
    rw [m1, sub_self] at h2
    rw [m2, sub_self] at h3
    rw [m3, sub_self] at h4
    exact ⟨h1, h2, h3, h4, h5⟩
  · intro hc
    rw [if_neg (not_lt.mpr hc)] at h1 h5
    exact ⟨h1, h5⟩

/-- Witness for C2 at the spec scenario: a 900 expense against balances
(0, 0, 100) fails, Savings is drained to 0, and nothing is logged. -/
theorem processExpense_failure_no_rollback_witness :
    ((Arus.sampleUser 0 0 100).ProcessExpense expense900).1 =
      some "insufficient funds across all categories" ∧
    (((Arus.sampleUser 0 0 100).ProcessExpense expense900).2.Categories
      .Expense).map (fun c => c.Balance.Amount) = some 0 ∧
    (((Arus.sampleUser 0 0 100).ProcessExpense expense900).2.Categories
      .Emergency).map (fun c => c.Balance.Amount) = some 0 ∧
    (((Arus.sampleUser 0 0 100).ProcessExpense expense900).2.Categories
      .Savings).map (fun c => c.Balance.Amount) = some 0 ∧
    ((Arus.sampleUser 0 0 100).ProcessExpense expense900).2.Expenses =
      (Arus.sampleUser 0 0 100).Expenses :=
  (processExpense_failure_no_rollback (Arus.sampleUser 0 0 100) expense900
      (catEAt 0) (catGAt 0) (catSAt 100) rfl rfl rfl
      (by norm_num [catEAt, Arus.NewMoney])
      (by norm_num [catGAt, Arus.NewMoney])
      (by norm_num [catSAt, Arus.NewMoney])
      (by norm_num [expense900, Arus.NewMoney])).1
    (by norm_num [catEAt, catGAt, catSAt, expense900, Arus.NewMoney])

/-- C10: `NewExpense` stores a strictly negative amount, and processing such
a transaction against a non-negative Expense balance succeeds without any
waterfall: the Expense category alone loses the full magnitude `m.Amount`
(possibly going negative), Emergency and Savings are untouched, and the
transaction is appended to the expense log. -/
theorem processExpense_negative_expense_no_waterfall
    (u : Arus.User) (m : Arus.Money) (date : ℤ) (description : String)
    (cE : Arus.Category)
    (hm : 0 < m.Amount)
    (hE : u.Categories .Expense = some cE)
    (he : 0 ≤ cE.Balance.Amount) :
    (Arus.NewExpense m date description).Amount.Amount < 0 ∧
    (u.ProcessExpense (Arus.NewExpense m date description)).1 = none ∧
    ((u.ProcessExpense (Arus.NewExpense m date description)).2.Categories
      .Expense).map (fun c => c.Balance.Amount) =
        some (cE.Balance.Amount - m.Amount) ∧
    (u.ProcessExpense (Arus.NewExpense m date description)).2.Categories
      .Emergency = u.Categories .Emergency ∧
    (u.ProcessExpense (Arus.NewExpense m date description)).2.Categories
      .Savings = u.Categories .Savings ∧
    (u.ProcessExpense (Arus.NewExpense m date description)).2.Expenses =
      u.Expenses ++ [Arus.NewExpense m date description] := by
  have hneg : -m.Amount < 0 := by linarith
  have hcov : -m.Amount ≤ cE.Balance.Amount := by linarith
  have hnd : ¬ (cE.Balance.Amount < -m.Amount) := not_lt.mpr hcov
  refine ⟨by simp [Arus.NewExpense]; linarith, ?_⟩
  simp [Arus.User.ProcessExpense, Arus.deductionOrder, Arus.deductLoop, hE,
    Arus.Category.Debit, Arus.Money.Subtract, Arus.Money.IsNegative,
    Arus.NewExpense, Arus.updateCat, hneg, hcov, hnd, abs_of_pos hm]

/-- Witness for C10: a `NewExpense` of 900 (stored as -900) against
balances (500, 300, 200) drives Expense to -400 and touches nothing else. -/
theorem processExpense_negative_expense_no_waterfall_witness :
    (Arus.NewExpense (Arus.NewMoney 900 "USD") 5 "Car Repair").Amount.Amount < 0 ∧
    ((Arus.sampleUser 500 300 200).ProcessExpense
      (Arus.NewExpense (Arus.NewMoney 900 "USD") 5 "Car Repair")).1 = none ∧
    (((Arus.sampleUser 500 300 200).ProcessExpense
      (Arus.NewExpense (Arus.NewMoney 900 "USD") 5 "Car Repair")).2.Categories
        .Expense).map (fun c => c.Balance.Amount) =
      some ((catEAt 500).Balance.Amount - (Arus.NewMoney 900 "USD").Amount) ∧
    ((Arus.sampleUser 500 300 200).ProcessExpense
      (Arus.NewExpense (Arus.NewMoney 900 "USD") 5 "Car Repair")).2.Categories
        .Emergency = (Arus.sampleUser 500 300 200).Categories .Emergency ∧
    ((Arus.sampleUser 500 300 200).ProcessExpense
      (Arus.NewExpense (Arus.NewMoney 900 "USD") 5 "Car Repair")).2.Categories
        .Savings = (Arus.sampleUser 500 300 200).Categories .Savings ∧
    ((Arus.sampleUser 500 300 200).ProcessExpense
      (Arus.NewExpense (Arus.NewMoney 900 "USD") 5 "Car Repair")).2.Expenses =
      (Arus.sampleUser 500 300 200).Expenses ++
        [Arus.NewExpense (Arus.NewMoney 900 "USD") 5 "Car Repair"] :=
  processExpense_negative_expense_no_waterfall (Arus.sampleUser 500 300 200)
    (Arus.NewMoney 900 "USD") 5 "Car Repair" (catEAt 500)
    (by norm_num [Arus.NewMoney]) rfl
    (by norm_num [catEAt, Arus.NewMoney])

/-- C4: `CheckIncomeStatus` returns the reserves-used warning exactly when
the Emergency or Savings balance is below zero; otherwise it returns the
income-covers-expenses message when the period's total income is at least
the period's total expense (as computed by `GetPeriodSummary`), and the
expenses-exceed-income message otherwise.  The warning strings are distinct
from both non-warning messages. -/
theorem checkIncomeStatus_classification
    (u : Arus.User) (period : Arus.Period) (cG cS : Arus.Category)
    (hG : u.Categories .Emergency = some cG)
    (hS : u.Categories .Savings = some cS) :
    ((cG.Balance.Amount < 0 ∨ cS.Balance.Amount < 0) →
      u.CheckIncomeStatus period =
        some (Arus.reservesWarning (decide (cG.Balance.Amount < 0))
          (decide (cS.Balance.Amount < 0)))) ∧
    ((0 ≤ cG.Balance.Amount ∧ 0 ≤ cS.Balance.Amount ∧
        (u.GetPeriodSummary period).1.Amount ≤
          (u.GetPeriodSummary period).2.2.1.Amount) →
      u.CheckIncomeStatus period = some "Your income covers your expenses.") ∧
    ((0 ≤ cG.Balance.Amount ∧ 0 ≤ cS.Balance.Amount ∧
        (u.GetPeriodSummary period).2.2.1.Amount <
          (u.GetPeriodSummary period).1.Amount) →
      u.CheckIncomeStatus period = some "Your expenses exceed your income.") ∧
    (∀ b1 b2 : Bool,
      Arus.reservesWarning b1 b2 ≠ "Your income covers your expenses." ∧
      Arus.reservesWarning b1 b2 ≠ "Your expenses exceed your income.") := by
  have e1 : (0 < 0 - cG.Balance.Amount) = (cG.Balance.Amount < 0) :=
    propext ⟨fun h => by linarith, fun h => by linarith⟩
  have e2 : (0 < 0 - cS.Balance.Amount) = (cS.Balance.Amount < 0) :=
    propext ⟨fun h => by linarith, fun h => by linarith⟩
  refine ⟨?_, ?_, ?_, ?_⟩
  · intro h
    have hb : (decide (cG.Balance.Amount < 0) || decide (cS.Balance.Amount < 0)) = true := by
      rw [Bool.or_eq_true, decide_eq_true_eq, decide_eq_true_eq]
      exact h
    simp [Arus.User.CheckIncomeStatus, hG, hS, e1, e2, hb]
  · rintro ⟨h1, h2, h3⟩
    have b1 : ¬ (cG.Balance.Amount < 0) := not_lt.mpr h1
    have b2 : ¬ (cS.Balance.Amount < 0) := not_lt.mpr h2
    simp [Arus.User.CheckIncomeStatus, hG, hS, e1, e2, b1, b2, h3]
  · rintro ⟨h1, h2, h3⟩
    have b1 : ¬ (cG.Balance.Amount < 0) := not_lt.mpr h1
    have b2 : ¬ (cS.Balance.Amount < 0) := not_lt.mpr h2
    have b3 : ¬ ((u.GetPeriodSummary period).1.Amount ≤
        (u.GetPeriodSummary period).2.2.1.Amount) := not_le.mpr h3
    simp [Arus.User.CheckIncomeStatus, hG, hS, e1, e2, b1, b2, b3]
  · intro b1 b2
    cases b1 <;> cases b2 <;> exact ⟨by simp [Arus.reservesWarning], by simp [Arus.reservesWarning]⟩

/-- Witness for C4: a negative Emergency balance triggers the warning. -/
theorem checkIncomeStatus_classification_witness :
    ((catGAt (-1)).Balance.Amount < 0 ∨ (catSAt 200).Balance.Amount < 0) ∧
    (Arus.sampleUser 500 (-1) 200).CheckIncomeStatus { StartDate := 0, EndDate := 10 } =
      some (Arus.reservesWarning (decide ((catGAt (-1)).Balance.Amount < 0))
        (decide ((catSAt 200).Balance.Amount < 0))) :=
  ⟨Or.inl (by norm_num [catGAt, Arus.NewMoney]),
   (checkIncomeStatus_classification (Arus.sampleUser 500 (-1) 200)
      { StartDate := 0, EndDate := 10 } (catGAt (-1)) (catSAt 200) rfl rfl).1
     (Or.inl (by norm_num [catGAt, Arus.NewMoney]))⟩
